import Mathlib

/-!
Verification of the cldbar frontend (React/TypeScript) and its spec.

Shallow embedding conventions:
- JavaScript numbers are modelled as rationals where division or decimal
  formatting is involved, and as integers for millisecond timestamps.
- The JavaScript expression x.toFixed(1) is modelled by toFixed1, which
  rounds to one decimal place and keeps the result numeric; the claims
  under study only depend on the value shown, not on string padding.
- React components are modelled as pure functions from their props to a
  description of what they render; returning null is modelled by none.
-/

namespace Cldbar

/-- toFixed1 models the JavaScript call x.toFixed(1): the value rounded to
one decimal place. -/
def toFixed1 (x : ℚ) : ℚ := (round (x * 10) : ℚ) / 10

/-! ## src/lib/format.ts -/

/-- Result of formatTokens: either the plain number (the n.toString()
branch) or a scaled value with the suffix B, M or K. -/
inductive TokenDisplay where
  | plain (n : ℚ)
  | scaled (value : ℚ) (suffix : String)
deriving DecidableEq

/-- formatTokens from src/lib/format.ts. -/
def formatTokens (n : ℚ) : TokenDisplay :=
  if n ≥ 1000000000 then .scaled (toFixed1 (n / 1000000000)) "B"
  else if n ≥ 1000000 then .scaled (toFixed1 (n / 1000000)) "M"
  else if n ≥ 1000 then .scaled (toFixed1 (n / 1000)) "K"
  else .plain n

/-- formatTokens as the claim words it: by ranges of n, lowest first. -/
def formatTokensClaim (n : ℚ) : TokenDisplay :=
  if n < 1000 then .plain n
  else if n < 1000000 then .scaled (toFixed1 (n / 1000)) "K"
  else if n < 1000000000 then .scaled (toFixed1 (n / 1000000)) "M"
  else .scaled (toFixed1 (n / 1000000000)) "B"

/-- Result of formatTimeAgo. -/
inductive TimeAgo where
  | unknown
  | justNow
  | minutesAgo (m : ℤ)
  | hoursAgo (h : ℤ)
  | daysAgo (d : ℤ)
deriving DecidableEq

/-- Model of the isoDate string argument of formatTimeAgo: whether it is
empty, and the result of new Date(isoDate).getTime() in milliseconds
(none models NaN, i.e. an unparseable date string). -/
structure DateInput where
  isEmpty : Bool
  parsedMs : Option ℤ
deriving DecidableEq

/-- Body of formatTimeAgo once diff = now - then is known: mins, hours and
days are the floored quotients exactly as computed in the source, where
Math.floor of a division is Int.fdiv. -/
def timeAgoOf (diff : ℤ) : TimeAgo :=
  if diff.fdiv 60000 < 1 then .justNow
  else if diff.fdiv 60000 < 60 then .minutesAgo (diff.fdiv 60000)
  else if (diff.fdiv 60000).fdiv 60 < 24 then .hoursAgo ((diff.fdiv 60000).fdiv 60)
  else .daysAgo (((diff.fdiv 60000).fdiv 60).fdiv 24)

/-- formatTimeAgo from src/lib/format.ts; now is Date.now() in ms. -/
def formatTimeAgo (now : ℤ) (d : DateInput) : TimeAgo :=
  if d.isEmpty then .unknown
  else
    match d.parsedMs with
    | none => .unknown
    | some t => timeAgoOf (now - t)

theorem fdiv_60000 (a : ℤ) : a.fdiv 60000 = a / 60000 :=
  Int.fdiv_eq_ediv a (by norm_num)

theorem fdiv_60 (a : ℤ) : a.fdiv 60 = a / 60 :=
  Int.fdiv_eq_ediv a (by norm_num)

theorem fdiv_24 (a : ℤ) : a.fdiv 24 = a / 24 :=
  Int.fdiv_eq_ediv a (by norm_num)

theorem fdiv_3600000 (a : ℤ) : a.fdiv 3600000 = a / 3600000 :=
  Int.fdiv_eq_ediv a (by norm_num)

theorem fdiv_86400000 (a : ℤ) : a.fdiv 86400000 = a / 86400000 :=
  Int.fdiv_eq_ediv a (by norm_num)

/-- C9: formatTokens returns the plain number for n below 1000, the value
over 1000 with suffix K for 1000 up to one million, the value over one
million with suffix M up to one billion, and the value over one billion
with suffix B from one billion on. -/
theorem formatTokens_matches_claim (n : ℚ) : formatTokens n = formatTokensClaim n := by
  unfold formatTokens formatTokensClaim
  split_ifs <;> first | rfl | linarith

/-- C10: formatTimeAgo returns unknown for an empty or unparseable date
string; for a valid timestamp it returns justNow under one elapsed minute,
the whole elapsed minutes under an hour, the whole elapsed hours under a
day, and the whole elapsed days otherwise. -/
theorem formatTimeAgo_cases (now : ℤ) (d : DateInput) :
    (d.isEmpty = true → formatTimeAgo now d = .unknown) ∧
    (d.parsedMs = none → formatTimeAgo now d = .unknown) ∧
    ∀ t, d.isEmpty = false → d.parsedMs = some t →
      ((now - t < 60000 → formatTimeAgo now d = .justNow) ∧
       (60000 ≤ now - t → now - t < 3600000 →
          formatTimeAgo now d = .minutesAgo ((now - t).fdiv 60000)) ∧
       (3600000 ≤ now - t → now - t < 86400000 →
          formatTimeAgo now d = .hoursAgo ((now - t).fdiv 3600000)) ∧
       (86400000 ≤ now - t → formatTimeAgo now d = .daysAgo ((now - t).fdiv 86400000))) := by
  refine ⟨fun h => by simp [formatTimeAgo, h], ?_, ?_⟩
  · intro h
    cases he : d.isEmpty <;> simp [formatTimeAgo, h, he]
  · intro t he hp
    have hform : formatTimeAgo now d = timeAgoOf (now - t) := by
      simp [formatTimeAgo, he, hp]
    rw [hform]
    unfold timeAgoOf
    rw [fdiv_60000, fdiv_60, fdiv_24, fdiv_3600000, fdiv_86400000]
    refine ⟨fun h1 => ?_, fun h1 h2 => ?_, fun h1 h2 => ?_, fun h1 => ?_⟩
    · rw [if_pos (by omega)]
    · rw [if_neg (by omega), if_pos (by omega)]
    · rw [if_neg (by omega), if_neg (by omega), if_pos (by omega)]
      congr 1
      omega
    · rw [if_neg (by omega), if_neg (by omega), if_neg (by omega)]
      congr 1
      omega

/-- A concrete run of formatTimeAgo_cases: an empty string and an
unparseable string give unknown, and a timestamp 90 seconds in the past
gives one whole minute. -/
theorem formatTimeAgo_cases_witness :
    formatTimeAgo 1000000 ⟨true, none⟩ = .unknown ∧
    formatTimeAgo 1000000 ⟨false, none⟩ = .unknown ∧
    formatTimeAgo 1000000 ⟨false, some 910000⟩ = .minutesAgo 1 := by
  refine ⟨(formatTimeAgo_cases 1000000 ⟨true, none⟩).1 rfl,
          (formatTimeAgo_cases 1000000 ⟨false, none⟩).2.1 rfl, ?_⟩
  have h := ((formatTimeAgo_cases 1000000 ⟨false, some 910000⟩).2.2
              910000 rfl rfl).2.1 (by decide) (by decide)
  rw [h]
  decide

/-! ## src/components/tray/RateLimits.tsx -/

/-- RateLimitWindow from src/lib/types.ts; resetsAt keeps the optional
ISO string verbatim. -/
structure RateLimitWindow where
  label : String
  utilization : ℚ
  resetsAt : Option String
deriving DecidableEq

/-- RateLimitStatus from src/lib/types.ts. -/
structure RateLimitStatus where
  available : Bool
  fiveHour : Option RateLimitWindow
  sevenDay : Option RateLimitWindow
  sevenDayOpus : Option RateLimitWindow
deriving DecidableEq

/-- What one WindowBar renders: the label, the numeric percentage text
(utilization.toFixed(1)), the animated bar width in percent, the bar
color threshold class and the warning-triangle flag. -/
structure WindowBarView where
  labelText : String
  percentShown : ℚ
  barWidthPct : ℚ
  highWarning : Bool
deriving DecidableEq

/-- WindowBar from src/components/tray/RateLimits.tsx: the width style is
min(utilization, 100) percent, the text is utilization.toFixed(1), and
the warning icon shows at utilization of at least 80. -/
def WindowBar (w : RateLimitWindow) : WindowBarView :=
  { labelText := w.label
  , percentShown := toFixed1 w.utilization
  , barWidthPct := min w.utilization 100
  , highWarning := decide (w.utilization ≥ 80) }

/-- RateLimits from src/components/tray/RateLimits.tsx, as the list of
windows it renders bars for; none models the component returning null. -/
def RateLimits (status : Option RateLimitStatus) : Option (List WindowBarView) :=
  match status with
  | none => none
  | some s =>
    if !s.available then none
    else
      let windows := [s.fiveHour, s.sevenDay, s.sevenDayOpus].filterMap id
      if windows.isEmpty then none
      else some (windows.map WindowBar)

/-- C4: RateLimits renders nothing when there is no status, when the
status has available = false, or when all three windows are null. -/
theorem rateLimits_renders_nothing (status : Option RateLimitStatus)
    (h : status = none ∨ ∃ s, status = some s ∧
          (s.available = false ∨
            (s.fiveHour = none ∧ s.sevenDay = none ∧ s.sevenDayOpus = none))) :
    RateLimits status = none := by
  rcases h with h | ⟨s, hs, h⟩
  · rw [h]; rfl
  · rcases h with h | ⟨h1, h2, h3⟩
    · simp [RateLimits, hs, h]
    · cases ha : s.available <;> simp [RateLimits, hs, h1, h2, h3, ha]

/-- A concrete run of rateLimits_renders_nothing on each of the three
vanishing cases. -/
theorem rateLimits_renders_nothing_witness :
    RateLimits none = none ∧
    RateLimits (some ⟨false, some ⟨"5h", 50, none⟩, none, none⟩) = none ∧
    RateLimits (some ⟨true, none, none, none⟩) = none :=
  ⟨rateLimits_renders_nothing none (Or.inl rfl),
   rateLimits_renders_nothing _ (Or.inr ⟨_, rfl, Or.inl rfl⟩),
   rateLimits_renders_nothing _ (Or.inr ⟨_, rfl, Or.inr ⟨rfl, rfl, rfl⟩⟩)⟩

/-- C5: the bar width is the utilization clamped to at most 100, while the
numeric label is the unclamped utilization (only rounded to one decimal
for display); over quota the width saturates at 100 but the label stays
at least 100. -/
theorem windowBar_clamps_display_only (w : RateLimitWindow) :
    (WindowBar w).barWidthPct = min w.utilization 100 ∧
    (WindowBar w).percentShown = toFixed1 w.utilization ∧
    (100 < w.utilization →
      (WindowBar w).barWidthPct = 100 ∧ 100 ≤ (WindowBar w).percentShown) := by
  refine ⟨rfl, rfl, fun h => ⟨min_eq_right (le_of_lt h), ?_⟩⟩
  show (100 : ℚ) ≤ toFixed1 w.utilization
  unfold toFixed1
  rw [le_div_iff₀ (by norm_num)]
  have : (1000 : ℤ) ≤ round (w.utilization * 10) := by
    rw [round_eq, Int.le_floor]
    push_cast
    linarith
  exact_mod_cast this

/-- A concrete run of windowBar_clamps_display_only: at utilization 150.5
the bar width is 100 but the shown percentage is 150.5. -/
theorem windowBar_clamps_display_only_witness :
    (WindowBar ⟨"5-hour", 301/2, none⟩).barWidthPct = 100 ∧
    (WindowBar ⟨"5-hour", 301/2, none⟩).percentShown = 301/2 := by
  have h := (windowBar_clamps_display_only ⟨"5-hour", 301/2, none⟩).2.2 (by norm_num)
  refine ⟨h.1, ?_⟩
  have h2 := (windowBar_clamps_display_only ⟨"5-hour", 301/2, none⟩).2.1
  rw [h2]
  norm_num [toFixed1, round_eq]

/-! ## src/lib/types.ts and the AddProfileForm component -/

/-- ProviderType from src/lib/types.ts. -/
inductive ProviderType where
  | claude
  | gemini
  | zai
deriving DecidableEq

/-- SourceType from src/lib/types.ts. -/
inductive SourceType where
  | account
  | api
deriving DecidableEq

/-- apiSupportedProviders from src/lib/types.ts: providers that support
the API source type; the source comments that zai is temporarily
disabled. -/
def apiSupportedProviders : List ProviderType := [.claude]

/-- accountSupportedProviders from src/lib/types.ts: providers that
support the account (local folder) source type. -/
def accountSupportedProviders : List ProviderType := [.claude, .gemini]

/-- providers from the AddProfileForm component: the selectable provider
buttons; the zai entry is commented out in the source pending a stable
z.ai API. -/
def formProviders : List ProviderType := [.claude, .gemini]

/-- Provider labels as written in the providers array of AddProfileForm. -/
def providerLabel : ProviderType → String
  | .claude => "Claude"
  | .gemini => "Gemini"
  | .zai => "z.ai"

/-- Component state written by handleValidate: the validated flag
(null, true or false) and the error banner text (null or a string). -/
structure ValidateState where
  validated : Option Bool
  error : Option String
deriving DecidableEq

/-- handleValidate from AddProfileForm, as a function of the outcome of
the validate_api_key invoke call: Except.ok b models the promise
resolving to the boolean b, Except.error e models the call throwing with
message String(e). The guard for a blank key (which returns before
calling) is handled in handleSubmit-style callers and is not reachable
here because the Test button is disabled for a blank key. -/
def handleValidate (outcome : Except String Bool) : ValidateState :=
  match outcome with
  | .ok true => { validated := some true, error := none }
  | .ok false => { validated := some false
                 , error := some "Invalid API key or insufficient permissions" }
  | .error e => { validated := some false, error := some e }

/-- C2 counterexample: a network or 5xx failure, which surfaces as the
invoke call throwing, is not classified as Unknown: handleValidate marks
it validated = false, the very same invalid marker that a 401/403
rejection (the call returning false) receives. -/
theorem handleValidate_throw_marked_invalid :
    (handleValidate (Except.error "network error")).validated = some false ∧
    (handleValidate (Except.error "network error")).validated
      = (handleValidate (Except.ok false)).validated := by
  exact ⟨rfl, rfl⟩

/-- C2 amended: a throwing validate_api_key call sets validated to false,
exactly as a 401/403 rejection does; the two outcomes differ only in the
error text, the thrown message versus the fixed invalid-key message, and
no Unknown classification exists in the component. -/
theorem handleValidate_classification (e : String) :
    (handleValidate (Except.error e)).validated = some false ∧
    (handleValidate (Except.error e)).error = some e ∧
    (handleValidate (Except.ok false)).validated = some false ∧
    (handleValidate (Except.ok false)).error
      = some "Invalid API key or insufficient permissions" ∧
    (handleValidate (Except.ok true)).validated = some true ∧
    (handleValidate (Except.ok true)).error = none := by
  exact ⟨rfl, rfl, rfl, rfl, rfl, rfl⟩

/-- C3 counterexample: the account source type is not supported for the
zai provider; accountSupportedProviders lists only claude and gemini. -/
theorem zai_not_account_supported :
    ProviderType.zai ∉ accountSupportedProviders := by
  decide

/-- C3 amended: the account source type is supported exactly for claude
and gemini, the api source type exactly for claude, and zai is disabled
entirely: it appears in neither support list and is commented out of the
add-profile provider choices, so the concrete variants are local-claude,
local-gemini and remote-claude-api. -/
theorem provider_variants :
    accountSupportedProviders = [.claude, .gemini] ∧
    apiSupportedProviders = [.claude] ∧
    formProviders = [.claude, .gemini] ∧
    ProviderType.zai ∉ accountSupportedProviders ∧
    ProviderType.zai ∉ apiSupportedProviders ∧
    ProviderType.zai ∉ formProviders := by
  refine ⟨rfl, rfl, rfl, ?_, ?_, ?_⟩ <;> decide

/-- jsTrim models the JavaScript String.prototype.trim call: leading and
trailing whitespace characters are removed. -/
def jsTrim (s : String) : String :=
  String.mk (((s.toList.dropWhile Char.isWhitespace).reverse.dropWhile
                Char.isWhitespace).reverse)

/-- Payload of the add_profile invoke call built by handleSubmit. -/
structure ProfilePayload where
  id : String
  name : String
  providerType : ProviderType
  configDir : String
  enabled : Bool
  sourceType : SourceType
  apiKey : Option String
deriving DecidableEq

/-- Outcome of handleSubmit: the error banner it sets, and the payload it
passes to add_profile, none when it returns before invoking. -/
structure SubmitOutcome where
  error : Option String
  invoked : Option ProfilePayload
deriving DecidableEq

/-- handleSubmit from AddProfileForm; nowMs models Date.now(). The
JavaScript truthiness tests on trimmed strings are emptiness tests, and
the optional-chained label lookup over the providers array defaults to
the string undefined when the provider is absent from the list. -/
def handleSubmit (providerType : ProviderType) (sourceType : SourceType)
    (name configDir apiKey : String) (nowMs : ℤ) : SubmitOutcome :=
  let isApi := sourceType = SourceType.api
  let label := ((formProviders.find? (fun p => p = providerType)).map
                  providerLabel).getD "undefined"
  let profileName :=
    if jsTrim name = "" then label ++ (if isApi then " (API)" else "") else jsTrim name
  let id := providerLabel providerType ++ "-" ++
              (if isApi then "api" else "account") ++ "-" ++ toString nowMs
  if isApi ∧ jsTrim apiKey = "" then
    { error := some "API key is required", invoked := none }
  else if ¬ isApi ∧ jsTrim configDir = "" then
    { error := some "Config directory is required", invoked := none }
  else
    { error := none
    , invoked := some
        { id := id
        , name := profileName
        , providerType := providerType
        , configDir := if isApi then "" else jsTrim configDir
        , enabled := true
        , sourceType := sourceType
        , apiKey := if isApi then some (jsTrim apiKey) else none } }

/-- C7: handleSubmit never invokes add_profile with a missing required
field: with source type api and an apiKey blank after trimming, or with
source type account and a configDir blank after trimming, it sets an
error and invokes nothing. -/
theorem handleSubmit_requires_fields (providerType : ProviderType)
    (sourceType : SourceType) (name configDir apiKey : String) (nowMs : ℤ) :
    (sourceType = SourceType.api → jsTrim apiKey = "" →
      handleSubmit providerType sourceType name configDir apiKey nowMs
        = { error := some "API key is required", invoked := none }) ∧
    (sourceType = SourceType.account → jsTrim configDir = "" →
      handleSubmit providerType sourceType name configDir apiKey nowMs
        = { error := some "Config directory is required", invoked := none }) := by
  constructor
  · intro hs hk
    simp [handleSubmit, hs, hk]
  · intro hs hd
    simp [handleSubmit, hs, hd]

/-- A concrete run of handleSubmit_requires_fields: an api submission with
a whitespace key, and an account submission with an empty directory, both
return with an error and no add_profile call. -/
theorem handleSubmit_requires_fields_witness :
    handleSubmit .claude .api "my profile" "" "   " 1700000000000
      = { error := some "API key is required", invoked := none } ∧
    handleSubmit .gemini .account "" "" "" 1700000000000
      = { error := some "Config directory is required", invoked := none } :=
  ⟨(handleSubmit_requires_fields .claude .api "my profile" "" "   "
      1700000000000).1 rfl (by decide),
   (handleSubmit_requires_fields .gemini .account "" "" ""
      1700000000000).2 rfl (by decide)⟩

/-! ## The TrayPopup component -/

/-- Profile from src/lib/types.ts. -/
structure Profile where
  id : String
  name : String
  providerType : ProviderType
  configDir : String
  enabled : Bool
  sourceType : SourceType
  hasApiKey : Bool
deriving DecidableEq

/-- The three views of TrayPopup. -/
inductive View where
  | main
  | settings
  | addProfile
deriving DecidableEq

/-- The data refreshes TrayPopup can trigger through its hooks. -/
inductive RefreshAction where
  | usageStats
  | activeSessions
  | dailyUsage
deriving DecidableEq

/-- An installed interval timer: its period in milliseconds and the
refreshes its callback performs. -/
structure IntervalSpec where
  intervalMs : ℕ
  actions : List RefreshAction
deriving DecidableEq

/-- Auto-refresh effect of TrayPopup: for a view other than main the
effect returns early and installs no timer; on the main view it installs
a 5000 ms interval that refreshes stats, sessions and daily usage. -/
def autoRefreshEffect (view : View) : Option IntervalSpec :=
  if view != View.main then none
  else some { intervalMs := 5000
            , actions := [.usageStats, .activeSessions, .dailyUsage] }

/-- Click handler of the manual refresh button in the TrayPopup title
bar. -/
def manualRefreshActions : List RefreshAction :=
  [.usageStats, .activeSessions, .dailyUsage]

/-- C6: on the main view TrayPopup installs a 5000 ms interval refreshing
usage stats, active sessions and daily usage; the manual refresh button
performs those same three refreshes; on the settings and add-profile
views no interval is installed. -/
theorem trayPopup_refresh_cadence :
    autoRefreshEffect View.main
      = some { intervalMs := 5000, actions := manualRefreshActions } ∧
    autoRefreshEffect View.settings = none ∧
    autoRefreshEffect View.addProfile = none ∧
    manualRefreshActions
      = [RefreshAction.usageStats, .activeSessions, .dailyUsage] := by
  exact ⟨rfl, rfl, rfl, rfl⟩

/-- handleRemoveProfile from TrayPopup, as the new active profile id it
selects. Arguments: updated is the profile list returned by the
refreshProfiles call after remove_profile succeeded (none when that call
failed and returned undefined), profiles is the stale list in scope,
activeProfileId the current selection, and id the removed profile. The
JavaScript fallback updated or-or profiles is Option.getD, and
remaining[0] of a nonempty filter result is the head. -/
def handleRemoveProfile (updated : Option (List Profile))
    (profiles : List Profile) (activeProfileId : Option String)
    (id : String) : Option String :=
  if activeProfileId = some id then
    match (updated.getD profiles).filter (fun p => p.id != id) with
    | [] => none
    | p :: _ => some p.id
  else activeProfileId

/-- C8: after removing the active profile the selection becomes the first
remaining profile or null when none remain, and the selection never
references the removed id; removing a non-active profile leaves the
selection unchanged. -/
theorem handleRemoveProfile_selection (updated : Option (List Profile))
    (profiles : List Profile) (activeProfileId : Option String) (id : String) :
    handleRemoveProfile updated profiles activeProfileId id ≠ some id ∧
    (activeProfileId = some id →
      handleRemoveProfile updated profiles activeProfileId id
        = (((updated.getD profiles).filter
              (fun p => p.id != id)).head?).map Profile.id) ∧
    (activeProfileId ≠ some id →
      handleRemoveProfile updated profiles activeProfileId id
        = activeProfileId) := by
  unfold handleRemoveProfile
  by_cases h : activeProfileId = some id
  · rw [if_pos h]
    cases hf : (updated.getD profiles).filter (fun p => p.id != id) with
    | nil =>
      refine ⟨by simp, fun _ => by simp, fun hne => absurd h hne⟩
    | cons p rest =>
      have hp : p ∈ (updated.getD profiles).filter (fun p => p.id != id) := by
        rw [hf]; exact List.mem_cons_self p rest
      have hpid : p.id ≠ id := by
        have := List.of_mem_filter hp
        simpa using this
      refine ⟨by simpa using hpid, fun _ => by simp, fun hne => absurd h hne⟩
  · rw [if_neg h]
    exact ⟨h, fun ha => absurd ha h, fun _ => rfl⟩

/-- A concrete run of handleRemoveProfile_selection: removing the active
profile p1 moves the selection to the surviving profile p2, and removing
the non-active p2 keeps the selection on p1. -/
theorem handleRemoveProfile_selection_witness :
    handleRemoveProfile
        (some [⟨"p2", "Gemini", .gemini, "d2", true, .account, false⟩])
        [⟨"p1", "Claude", .claude, "d1", true, .account, false⟩,
         ⟨"p2", "Gemini", .gemini, "d2", true, .account, false⟩]
        (some "p1") "p1" = some "p2" ∧
    handleRemoveProfile
        (some [⟨"p1", "Claude", .claude, "d1", true, .account, false⟩])
        [⟨"p1", "Claude", .claude, "d1", true, .account, false⟩,
         ⟨"p2", "Gemini", .gemini, "d2", true, .account, false⟩]
        (some "p1") "p2" = some "p1" := by
  constructor
  · rw [(handleRemoveProfile_selection
          (some [⟨"p2", "Gemini", .gemini, "d2", true, .account, false⟩])
          [⟨"p1", "Claude", .claude, "d1", true, .account, false⟩,
           ⟨"p2", "Gemini", .gemini, "d2", true, .account, false⟩]
          (some "p1") "p1").2.1 rfl]
    rfl
  · rw [(handleRemoveProfile_selection
          (some [⟨"p1", "Claude", .claude, "d1", true, .account, false⟩])
          [⟨"p1", "Claude", .claude, "d1", true, .account, false⟩,
           ⟨"p2", "Gemini", .gemini, "d2", true, .account, false⟩]
          (some "p1") "p2").2.2 (by simp)]

/-! ## The aggregation engine

The aggregation engine lives in the Rust backend (src-tauri/src/providers
and src-tauri/src/commands.rs per the README), whose sources are not part
of the frontend tree; it is modelled here from the spec. -/

/-- Modelled from the spec: a NormalizedEvent, one parsed log record
(timestamp, session id, model id and the four token counts), as described
in section 3 of the spec; the Rust parser producing it is not under
src/. -/
structure NormalizedEvent where
  timestampMs : ℤ
  sessionId : String
  model : String
  inputTokens : ℕ
  outputTokens : ℕ
  cacheReadTokens : ℕ
  cacheWriteTokens : ℕ
deriving DecidableEq

/-- ModelUsage from src/lib/types.ts: the per-model subtotal inside a
UsageStats. The costUsd field, provider pricing that the conservation
claim does not touch, is omitted from this model. -/
structure ModelUsage where
  model : String
  inputTokens : ℕ
  outputTokens : ℕ
  cacheReadTokens : ℕ
  cacheWriteTokens : ℕ
deriving DecidableEq

/-- UsageStats from src/lib/types.ts, with modelBreakdown as an
association list from model id to ModelUsage (the Record with unique
keys). The provider label, distinct-session count and estimated cost,
which the token-conservation claim does not touch, are omitted from this
model. -/
structure UsageStats where
  totalInputTokens : ℕ
  totalOutputTokens : ℕ
  totalCacheReadTokens : ℕ
  totalCacheWriteTokens : ℕ
  totalMessages : ℕ
  modelBreakdown : List (String × ModelUsage)
deriving DecidableEq

/-- Modelled from the spec: adding one event to the per-model breakdown
accumulator of section 4.3 (bucket by model id into ModelUsage
accumulators); the entry for the model of the event is updated in place,
and a fresh entry is appended when the model is new. -/
def addEventToBreakdown (bd : List (String × ModelUsage))
    (e : NormalizedEvent) : List (String × ModelUsage) :=
  match bd with
  | [] => [(e.model,
      { model := e.model
      , inputTokens := e.inputTokens
      , outputTokens := e.outputTokens
      , cacheReadTokens := e.cacheReadTokens
      , cacheWriteTokens := e.cacheWriteTokens })]
  | (k, mu) :: rest =>
    if k = e.model then
      (k, { mu with
              inputTokens := mu.inputTokens + e.inputTokens
            , outputTokens := mu.outputTokens + e.outputTokens
            , cacheReadTokens := mu.cacheReadTokens + e.cacheReadTokens
            , cacheWriteTokens := mu.cacheWriteTokens + e.cacheWriteTokens })
        :: rest
    else (k, mu) :: addEventToBreakdown rest e

/-- Modelled from the spec: folding one event into a UsageStats
accumulator, adding the token counts of the event to the totals and to
its model bucket and counting one message, per section 4.3. -/
def foldEvent (s : UsageStats) (e : NormalizedEvent) : UsageStats :=
  { totalInputTokens := s.totalInputTokens + e.inputTokens
  , totalOutputTokens := s.totalOutputTokens + e.outputTokens
  , totalCacheReadTokens := s.totalCacheReadTokens + e.cacheReadTokens
  , totalCacheWriteTokens := s.totalCacheWriteTokens + e.cacheWriteTokens
  , totalMessages := s.totalMessages + 1
  , modelBreakdown := addEventToBreakdown s.modelBreakdown e }

/-- The all-zero UsageStats an aggregation pass starts from. -/
def emptyStats : UsageStats := ⟨0, 0, 0, 0, 0, []⟩

/-- Modelled from the spec: the Aggregator fold of section 4.3, iterating
once over the event sequence. -/
def aggregate (events : List NormalizedEvent) : UsageStats :=
  events.foldl foldEvent emptyStats

/-- Sum of the input tokens over the entries of a model breakdown. -/
def breakdownInputSum (bd : List (String × ModelUsage)) : ℕ :=
  (bd.map (fun p => p.2.inputTokens)).sum

/-- Sum of the output tokens over the entries of a model breakdown. -/
def breakdownOutputSum (bd : List (String × ModelUsage)) : ℕ :=
  (bd.map (fun p => p.2.outputTokens)).sum

theorem breakdownInputSum_addEvent (bd : List (String × ModelUsage))
    (e : NormalizedEvent) :
    breakdownInputSum (addEventToBreakdown bd e)
      = breakdownInputSum bd + e.inputTokens := by
  induction bd with
  | nil => simp [addEventToBreakdown, breakdownInputSum]
  | cons p rest ih =>
    obtain ⟨k, mu⟩ := p
    by_cases hk : k = e.model
    · simp [addEventToBreakdown, hk, breakdownInputSum]
      omega
    · simp only [addEventToBreakdown, if_neg hk, breakdownInputSum,
        List.map_cons, List.sum_cons] at *
      omega

theorem breakdownOutputSum_addEvent (bd : List (String × ModelUsage))
    (e : NormalizedEvent) :
    breakdownOutputSum (addEventToBreakdown bd e)
      = breakdownOutputSum bd + e.outputTokens := by
  induction bd with
  | nil => simp [addEventToBreakdown, breakdownOutputSum]
  | cons p rest ih =>
    obtain ⟨k, mu⟩ := p
    by_cases hk : k = e.model
    · simp [addEventToBreakdown, hk, breakdownOutputSum]
      omega
    · simp only [addEventToBreakdown, if_neg hk, breakdownOutputSum,
        List.map_cons, List.sum_cons] at *
      omega

/-- The token-conservation invariant is preserved along the whole fold,
from any accumulator satisfying it. -/
theorem aggregate_invariant (events : List NormalizedEvent) (s : UsageStats)
    (hin : breakdownInputSum s.modelBreakdown = s.totalInputTokens)
    (hout : breakdownOutputSum s.modelBreakdown = s.totalOutputTokens) :
    breakdownInputSum (events.foldl foldEvent s).modelBreakdown
        = (events.foldl foldEvent s).totalInputTokens ∧
    breakdownOutputSum (events.foldl foldEvent s).modelBreakdown
        = (events.foldl foldEvent s).totalOutputTokens := by
  induction events generalizing s with
  | nil => exact ⟨hin, hout⟩
  | cons e rest ih =>
    refine ih (foldEvent s e) ?_ ?_
    · rw [foldEvent, breakdownInputSum_addEvent, hin]
    · rw [foldEvent, breakdownOutputSum_addEvent, hout]

/-- C1: for every event sequence the UsageStats produced by the
aggregation pass has its model breakdown summing exactly to the totals:
the input tokens over all modelBreakdown entries add up to
totalInputTokens and the output tokens to totalOutputTokens. -/
theorem aggregate_breakdown_sums (events : List NormalizedEvent) :
    breakdownInputSum (aggregate events).modelBreakdown
        = (aggregate events).totalInputTokens ∧
    breakdownOutputSum (aggregate events).modelBreakdown
        = (aggregate events).totalOutputTokens :=
  aggregate_invariant events emptyStats rfl rfl

end Cldbar
